import Mathlib

/-!
Shallow embedding of `anchor/shower.py` (repository rprechelt/anchor).

The module builds ZHAireS simulation tasks.  Python floats are embedded as
exact rationals (every Python float is a rational number); the single
floating-point power `10.0 ** energy` is embedded as the real power
`(10 : ℝ) ^ energy`.  Filesystem and process state (`os.makedirs`,
`os.chdir`, `print`, construction of `zhaires.Task` objects) is threaded
explicitly through a `World` record.  External collaborators
(`zhaires.run_directory`, the package location `dirname(dirname(__file__))`,
and the geomagnetic model `igrf12.igrf`) are parameters gathered in `Ctx`.
-/

namespace Anchor

/-- A Python exception (`raise ValueError(msg)` and friends); only the
message is relevant to the embedding. -/
structure PyErr where
  msg : String
deriving Repr, DecidableEq

/-- Filesystem and process state: the set of existing directories, the set
of existing ordinary files, the current working directory, the lines
printed so far, and how many `zhaires.Task` objects have been constructed. -/
structure World where
  dirs : List String
  files : List String
  cwd : String
  log : List String
  tasksCreated : Nat
deriving Repr, DecidableEq

/-- Module-level context: `dirname(dirname(__file__))` (the package root
holding `defaults/` and `aires/`), `zhaires.run_directory`, and the external
geomagnetic model `igrf12.igrf`, which maps (date, lat, lon, alt_km) to the
triple (total, inclination, declination). -/
structure Ctx where
  anchorDir : String
  run_directory : String
  igrf : String → ℚ → ℚ → ℚ → ℚ × ℚ × ℚ

/-- `os.path.join` of two components. -/
def join (a b : String) : String := a ++ "/" ++ b

/-- `os.path.join` of a base with several components. -/
def joinAll (a : String) (ps : List String) : String := ps.foldl join a

/-- Model of `os.makedirs(path, exist_ok=ok)`: creates the directory when it
is absent; when the directory already exists it raises `FileExistsError`
only if `exist_ok` is false (with `exist_ok=True` an existing directory is
not an error). -/
def makedirs (path : String) (ok : Bool) (w : World) : Except PyErr World :=
  if path ∈ w.dirs then
    if ok then Except.ok w else Except.error { msg := "FileExistsError: " ++ path }
  else Except.ok { w with dirs := path :: w.dirs }

/-- Model of `os.chdir(path)`. -/
def chdir (path : String) (w : World) : World := { w with cwd := path }

/-- Model of `print(s)`. -/
def pyprint (s : String) (w : World) : World := { w with log := w.log ++ [s] }

/-- Model of `os.path.exists(p)`. -/
def op_exists (w : World) (p : String) : Bool := p ∈ w.files || p ∈ w.dirs

/-- The `zhaires.Task` handle, recording the constructor arguments and the
values passed to each setter the module uses.  `cmds` records raw command
lines issued via `sim(...)` or `sim.read_cmd(...)`. -/
structure Task where
  program : Option String
  cmdfile : String
  loadedFiles : List (Option String) := []
  taskNameVal : Option String := none
  fileDir : Option (String × String) := none
  primaryParticleVal : Option String := none
  primaryEnergyVal : Option ℝ := none
  primaryZenithVal : Option ℚ := none
  primaryAzimuthVal : Option ℚ := none
  sites : List (String × ℚ × ℚ × ℚ × String) := []
  siteVal : Option String := none
  geomagneticVal : Option (ℚ × ℚ × ℚ) := none
  thinningVal : Option (ℚ × Bool) := none
  injectionVal : Option ℚ := none
  cmds : List String := []

/-- The result task of a creation call, when it returned one. -/
def taskOf (r : World × Except PyErr Task) : Option Task :=
  match r.2 with
  | Except.ok t => some t
  | Except.error _ => none

/-- Arguments of `create_shower` (the `default` and `program` keyword
arguments are passed separately). -/
structure ShowerArgs where
  name : String
  particle : String
  energy : ℚ
  zenith : ℚ
  azimuth : ℚ
  lat : ℚ
  lon : ℚ
  date : String := "2016-12-01"
  ground : ℚ := 0
  thinning : ℚ := 1 / 1000000
  injection : ℚ := 100
  restart : Bool := false

/-- Extra keyword arguments reaching a variant creator: whether the caller
explicitly supplied `default=` or `program=` (and with what value), and the
optional `model` selector. -/
structure Kwargs where
  defaultArg : Option String := none
  programArg : Option String := none
  model : Option String := none
deriving Repr, DecidableEq

/-- `create_shower` from `anchor/shower.py`: builds the run directory, moves
into it, constructs a task from the common defaults and configures it. -/
noncomputable def create_shower (ctx : Ctx) (a : ShowerArgs)
    (defaultFile program : Option String) (w : World) :
    World × Except PyErr Task :=
  let directory := join ctx.run_directory a.name
  let common_default := joinAll ctx.anchorDir ["defaults", "common_default.inp"]
  let rest : World → World × Except PyErr Task := fun w =>
    let w := chdir directory w
    let w := { w with tasksCreated := w.tasksCreated + 1 }
    let sim : Task := { program := program, cmdfile := common_default }
    let sim := { sim with loadedFiles := sim.loadedFiles ++ [defaultFile] }
    let sim := { sim with taskNameVal := some a.name }
    let sim := { sim with fileDir := some (directory, "All") }
    let sim := { sim with primaryParticleVal := some a.particle }
    let sim := { sim with primaryEnergyVal := some ((10 : ℝ) ^ ((a.energy : ℝ))) }
    let sim := { sim with primaryZenithVal := some a.zenith }
    let sim := { sim with primaryAzimuthVal := some a.azimuth }
    let sim := { sim with
      sites := sim.sites ++ [("LatLonAltSite", a.lat, a.lon, 1000 * a.ground, "m")] }
    let sim := { sim with siteVal := some "LatLonAltSite" }
    let B := ctx.igrf a.date a.lat a.lon a.ground
    let sim := { sim with geomagneticVal := some B }
    let sim := { sim with thinningVal := some (a.thinning, true) }
    let sim := { sim with injectionVal := some a.injection }
    (w, Except.ok sim)
  match makedirs directory true w with
  | Except.ok w => rest w
  | Except.error e =>
    if a.restart then
      rest (pyprint "Simulation directory exists. Restarting..." w)
    else
      (pyprint e.msg w,
       Except.error { msg := "Simulation already exists. Quitting..." })

/-- The resolved default file of `create_reflected`. -/
def reflectedDefault (ctx : Ctx) : String :=
  joinAll ctx.anchorDir ["defaults", "reflected_default.inp"]

/-- The resolved executable of `create_reflected` (keyed by `model`). -/
def reflectedProgram (ctx : Ctx) (kw : Kwargs) : String :=
  joinAll ctx.anchorDir ["aires", "aires_reflected_install", "bin",
    if kw.model == some "AiresQ" then "AiresQ" else "Aires"]

/-- `create_reflected` from `anchor/shower.py`. -/
noncomputable def create_reflected (ctx : Ctx) (a : ShowerArgs) (kw : Kwargs)
    (w : World) : World × Except PyErr Task :=
  if kw.defaultArg.isSome then
    (w, Except.error { msg := "Cannot overide default file in create_reflected." })
  else if kw.programArg.isSome then
    (w, Except.error { msg := "Cannot overide program in create_reflected." })
  else
    let program := reflectedProgram ctx kw
    if op_exists w program = false then
      (w, Except.error { msg := "Unable to find " ++ program })
    else
      create_shower ctx a (some (reflectedDefault ctx)) (some program) w

/-- The resolved default file of `create_direct`. -/
def directDefault (ctx : Ctx) : String :=
  joinAll ctx.anchorDir ["defaults", "direct_default.inp"]

/-- The resolved executable of `create_direct`. -/
def directProgram (ctx : Ctx) : String :=
  joinAll ctx.anchorDir ["aires", "aires_direct_install", "bin", "Aires"]

/-- `create_direct` from `anchor/shower.py`. -/
noncomputable def create_direct (ctx : Ctx) (a : ShowerArgs) (kw : Kwargs)
    (w : World) : World × Except PyErr Task :=
  if kw.defaultArg.isSome then
    (w, Except.error { msg := "Cannot overide default file in create_direct." })
  else if kw.programArg.isSome then
    (w, Except.error { msg := "Cannot overide program in create_direct." })
  else
    let program := directProgram ctx
    if op_exists w program = false then
      (w, Except.error { msg := "Unable to find " ++ program })
    else
      create_shower ctx a (some (directDefault ctx)) (some program) w

/-- Model of Python `str.lower()` on the ASCII strings the module compares. -/
def lowerStr (s : String) : String := ⟨s.data.map Char.toLower⟩

/-- Two-digit zero-padded rendering of a natural number below 100, used for
the fractional part of fixed-point formatting. -/
def pad2 (k : Nat) : String := if k < 10 then "0" ++ toString k else toString k

/-- Round a rational to the nearest multiple of 1/100, counted in
hundredths, with ties going to the even hundredth (the rounding CPython
uses when formatting floats). -/
def rnd2 (q : ℚ) : ℤ :=
  let s := q * 100
  let fl := ⌊s⌋
  if s - fl < 1 / 2 then fl
  else if s - fl > 1 / 2 then fl + 1
  else if fl % 2 = 0 then fl else fl + 1

/-- Model of the Python format `f"{q:.2f}"`: sign, integer part, a point
and exactly two fractional digits. -/
def format2f (q : ℚ) : String :=
  let n := rnd2 q
  let m := n.natAbs
  (if n < 0 then "-" else "") ++ toString (m / 100) ++ "." ++ pad2 (m % 100)

/-- Arguments of `create_stratospheric`. -/
structure StratArgs where
  name : String
  particle : String
  energy : ℚ
  zenith : ℚ
  azimuth : ℚ
  lat : ℚ
  lon : ℚ
  ground : ℚ := 0
  height : ℚ := 38
  thinning : ℚ := 1 / 1000000
  restart : Bool := false

/-- The resolved default file of `create_stratospheric`. -/
def stratDefault (ctx : Ctx) : String :=
  joinAll ctx.anchorDir ["defaults", "stratospheric_default.inp"]

/-- The binary directory of the stratospheric ZHAireS install. -/
def stratBindir (ctx : Ctx) : String :=
  joinAll ctx.anchorDir ["aires", "aires_stratospheric_install", "bin"]

/-- The resolved executable of `create_stratospheric` (keyed by `model`). -/
def stratProgram (ctx : Ctx) (kw : Kwargs) : String :=
  join (stratBindir ctx) (if kw.model == some "AiresQ" then "AiresQ" else "Aires")

/-- `create_stratospheric` from `anchor/shower.py`.  Two faithfulness notes:
the Python `for particle in ["Proton", "Iron", "Electron"]` loop rebinds the
`particle` parameter, and the loop variable keeps its final value after the
loop (Python for-loops do not create a scope), which the fold below models
by threading the loop variable; and the function performs no
`os.path.exists` check on its resolved executable. -/
noncomputable def create_stratospheric (ctx : Ctx) (a : StratArgs) (kw : Kwargs)
    (w : World) : World × Except PyErr Task :=
  let defaultFile := stratDefault ctx
  let bindir := stratBindir ctx
  let program := stratProgram ctx kw
  let directory := join ctx.run_directory a.name
  let common_default := joinAll ctx.anchorDir ["defaults", "common_default.inp"]
  let rest : World → World × Except PyErr Task := fun w =>
    let w := chdir directory w
    let w := { w with tasksCreated := w.tasksCreated + 1 }
    let _sim0 : Task := { program := some program, cmdfile := defaultFile }
    let w := { w with tasksCreated := w.tasksCreated + 1 }
    let sim : Task := { program := some program, cmdfile := common_default }
    let sim := { sim with loadedFiles := sim.loadedFiles ++ [some defaultFile] }
    let sim := { sim with taskNameVal := some a.name }
    let sim := { sim with fileDir := some (directory, "All") }
    let raspass := join bindir "RASPASSprimary"
    let looped := ["Proton", "Iron", "Electron"].foldl
      (fun (acc : Task × String) p =>
        ({ acc.1 with cmds := acc.1.cmds ++
            ["AddSpecialParticle RASPASS" ++ p ++ " " ++ raspass ++ " " ++ p] }, p))
      (sim, a.particle)
    let sim := looped.1
    let particle := looped.2
    let afterSpecial : String → World × Except PyErr Task := fun special =>
      let sim := { sim with primaryParticleVal := some special }
      let sim := { sim with primaryEnergyVal := some ((10 : ℝ) ^ ((a.energy : ℝ))) }
      let sim := { sim with primaryZenithVal := some (180 - a.zenith) }
      let sim := { sim with primaryAzimuthVal := some a.azimuth }
      let sim := { sim with
        sites := sim.sites ++ [("LatLonAltSite", a.lat, a.lon, 1000 * a.ground, "m")] }
      let sim := { sim with siteVal := some "LatLonAltSite" }
      let sim := { sim with thinningVal := some (a.thinning, true) }
      let sim := { sim with cmds := sim.cmds ++
        ["SetGlobal RASPASSHeight " ++ format2f (a.height * 1000)] }
      let w := pyprint
        "WARNING: create_stratospheric is still alpha and not recommended for use." w
      (w, Except.ok sim)
    if lowerStr particle == "proton" then afterSpecial "RASPASSProton"
    else if lowerStr particle == "iron" then afterSpecial "RASPASSIron"
    else if lowerStr particle == "electron" then afterSpecial "RASPASSElectron"
    else
      (w, Except.error { msg := "stratospheric showers are only supported " ++
        "for 'proton', 'iron', and 'electron' primaries." })
  match makedirs directory true w with
  | Except.ok w => rest w
  | Except.error e =>
    if a.restart then
      rest (pyprint "Simulation directory exists. Restarting..." w)
    else
      (pyprint e.msg w,
       Except.error { msg := "Simulation already exists. Quitting..." })

/-- A concrete context for the concrete evaluations below. -/
def ctx0 : Ctx :=
  { anchorDir := "/opt/anchor", run_directory := "/runs",
    igrf := fun _ _ _ _ => (1, 2, 3) }

/-- A concrete world in which the run directory of the simulation named
`sim` already exists and the variant executables are absent. -/
def w0 : World :=
  { dirs := ["/runs/sim"], files := [], cwd := "/", log := [], tasksCreated := 0 }

/-- A concrete fresh world: no directories, no files. -/
def wEmpty : World :=
  { dirs := [], files := [], cwd := "/", log := [], tasksCreated := 0 }

/-- Concrete `create_shower` arguments for the simulation named `sim`. -/
def args0 : ShowerArgs :=
  { name := "sim", particle := "proton", energy := 18, zenith := 60,
    azimuth := 0, lat := -79, lon := -112 }

/-- Concrete `create_stratospheric` arguments with a `proton` primary. -/
def sargs0 : StratArgs :=
  { name := "sim", particle := "proton", energy := 18, zenith := 60,
    azimuth := 0, lat := -79, lon := -112 }

/-- With `exist_ok=True`, `os.makedirs` never raises: it returns the world
with the directory present. -/
theorem makedirs_true (p : String) (w : World) :
    makedirs p true w =
      Except.ok (if p ∈ w.dirs then w else { w with dirs := p :: w.dirs }) := by
  unfold makedirs
  split <;> simp [*]

/-- `create_shower` always succeeds (with `exist_ok=True` the abort branch
is unreachable), and the returned task records exactly the configured
values. -/
theorem create_shower_spec (ctx : Ctx) (a : ShowerArgs) (df pg : Option String)
    (w : World) :
    ∃ t, (create_shower ctx a df pg w).2 = Except.ok t ∧
      t.program = pg ∧
      t.cmdfile = joinAll ctx.anchorDir ["defaults", "common_default.inp"] ∧
      t.loadedFiles = [df] ∧
      t.taskNameVal = some a.name ∧
      t.fileDir = some (join ctx.run_directory a.name, "All") ∧
      t.primaryParticleVal = some a.particle ∧
      t.primaryEnergyVal = some ((10 : ℝ) ^ ((a.energy : ℝ))) ∧
      t.primaryZenithVal = some a.zenith ∧
      t.primaryAzimuthVal = some a.azimuth ∧
      t.sites = [("LatLonAltSite", a.lat, a.lon, 1000 * a.ground, "m")] ∧
      t.siteVal = some "LatLonAltSite" ∧
      t.geomagneticVal = some (ctx.igrf a.date a.lat a.lon a.ground) ∧
      t.thinningVal = some (a.thinning, true) ∧
      t.injectionVal = some a.injection := by
  simp only [create_shower, makedirs_true]
  exact ⟨_, rfl, rfl, rfl, rfl, rfl, rfl, rfl, rfl, rfl, rfl, rfl, rfl, rfl, rfl, rfl⟩

/-- `create_shower` never returns an error. -/
theorem create_shower_isOk (ctx : Ctx) (a : ShowerArgs) (df pg : Option String)
    (w : World) : (create_shower ctx a df pg w).2.isOk = true := by
  obtain ⟨t, ht, -⟩ := create_shower_spec ctx a df pg w
  rw [ht]
  rfl

/-- `create_stratospheric` always succeeds: the particle whitelist check
tests the loop variable left at `"Electron"`, never the caller's argument.
The returned task always has the `RASPASSElectron` primary, the complement
zenith, no geomagnetic field and no injection altitude. -/
theorem create_stratospheric_spec (ctx : Ctx) (a : StratArgs) (kw : Kwargs)
    (w : World) :
    ∃ t, (create_stratospheric ctx a kw w).2 = Except.ok t ∧
      t.program = some (stratProgram ctx kw) ∧
      t.loadedFiles = [some (stratDefault ctx)] ∧
      t.taskNameVal = some a.name ∧
      t.primaryParticleVal = some "RASPASSElectron" ∧
      t.primaryEnergyVal = some ((10 : ℝ) ^ ((a.energy : ℝ))) ∧
      t.primaryZenithVal = some (180 - a.zenith) ∧
      t.primaryAzimuthVal = some a.azimuth ∧
      t.sites = [("LatLonAltSite", a.lat, a.lon, 1000 * a.ground, "m")] ∧
      t.siteVal = some "LatLonAltSite" ∧
      t.geomagneticVal = none ∧
      t.injectionVal = none ∧
      t.thinningVal = some (a.thinning, true) ∧
      t.cmds.getLast? =
        some ("SetGlobal RASPASSHeight " ++ format2f (a.height * 1000)) := by
  simp only [create_stratospheric, makedirs_true, List.foldl_cons, List.foldl_nil]
  exact ⟨_, rfl, rfl, rfl, rfl, rfl, rfl, rfl, rfl, rfl, rfl, rfl, rfl, rfl, rfl⟩

/-- A set of extra keyword arguments that explicitly supplies `default=`. -/
def kwDefault : Kwargs := { defaultArg := some "custom.inp" }

/-- A set of extra keyword arguments that explicitly supplies `program=`. -/
def kwProgram : Kwargs := { programArg := some "/usr/bin/Aires" }

/-- A concrete world in which the direct and reflected executables exist. -/
def wProg : World :=
  { dirs := [], files := [reflectedProgram ctx0 {}, directProgram ctx0],
    cwd := "/", log := [], tasksCreated := 0 }

/-- C1: the claimed behaviour does not hold.  With the run directory
`/runs/sim` already existing and `restart=false`, both `create_shower` and
`create_stratospheric` proceed and return a constructed task instead of
aborting — `os.makedirs` is called with `exist_ok=True`, so the
`FileExistsError` the handler waits for is never raised — and nothing is
printed; with `restart=true` the restart notice is not printed either. -/
theorem C1_restart_abort_unreachable :
    (create_shower ctx0 args0 none none w0).2.isOk = true ∧
    (create_shower ctx0 args0 none none w0).1.tasksCreated = 1 ∧
    (create_shower ctx0 args0 none none w0).1.log = [] ∧
    (create_shower ctx0 { args0 with restart := true } none none w0).1.log = [] ∧
    (create_stratospheric ctx0 sargs0 {} w0).2.isOk = true ∧
    (create_stratospheric ctx0 { sargs0 with restart := true } {} w0).1.log =
      ["WARNING: create_stratospheric is still alpha and not recommended for use."] :=
  ⟨rfl, rfl, rfl, rfl, rfl, rfl⟩

/-- C2: the claimed validation error is never raised.  Calling
`create_stratospheric` with the particle `"banana"` (not in the whitelist)
succeeds and returns a task: the whitelist check reads the loop variable
`particle`, which the `for particle in ["Proton", "Iron", "Electron"]` loop
left at `"Electron"`, not the caller's argument. -/
theorem C2_particle_whitelist_unreachable :
    (create_stratospheric ctx0 { sargs0 with particle := "banana" } {} wEmpty).2.isOk
      = true ∧
    (taskOf (create_stratospheric ctx0 { sargs0 with particle := "banana" } {} wEmpty)).map
        Task.primaryParticleVal = some (some "RASPASSElectron") :=
  ⟨rfl, rfl⟩

/-- C3: the claimed particle mapping does not hold.  For the particle
`"proton"` the primary set on the task is `RASPASSElectron`, not
`RASPASSProton` (and likewise `"iron"` maps to `RASPASSElectron`): the
dispatch reads the loop variable left at `"Electron"`. -/
theorem C3_special_primary_always_electron :
    (taskOf (create_stratospheric ctx0 sargs0 {} wEmpty)).map Task.primaryParticleVal
      = some (some "RASPASSElectron") ∧
    (taskOf (create_stratospheric ctx0 { sargs0 with particle := "iron" } {} wEmpty)).map
        Task.primaryParticleVal = some (some "RASPASSElectron") :=
  ⟨rfl, rfl⟩

/-- C4 counterexample: `create_stratospheric` performs no existence check on
its resolved executable.  In a world without the executable the call
succeeds, after constructing two simulation tasks, instead of failing with
a lookup error. -/
theorem C4_cex_stratospheric_skips_existence_check :
    op_exists wEmpty (stratProgram ctx0 {}) = false ∧
    (create_stratospheric ctx0 sargs0 {} wEmpty).2.isOk = true ∧
    (create_stratospheric ctx0 sargs0 {} wEmpty).1.tasksCreated = 2 :=
  ⟨rfl, rfl, rfl⟩

/-- C4 (amended): `create_direct` and `create_reflected` fail with an
"Unable to find" error when the resolved executable does not exist, leaving
the world unchanged — in particular before any simulation task is
constructed. -/
theorem C4_missing_executable_rejected (ctx : Ctx) (a : ShowerArgs) (kw : Kwargs)
    (w : World)
    (hd : kw.defaultArg = none) (hp : kw.programArg = none)
    (hR : op_exists w (reflectedProgram ctx kw) = false)
    (hD : op_exists w (directProgram ctx) = false) :
    (create_reflected ctx a kw w).2 =
      Except.error { msg := "Unable to find " ++ reflectedProgram ctx kw } ∧
    (create_reflected ctx a kw w).1 = w ∧
    (create_direct ctx a kw w).2 =
      Except.error { msg := "Unable to find " ++ directProgram ctx } ∧
    (create_direct ctx a kw w).1 = w := by
  simp [create_reflected, create_direct, hd, hp, hR, hD]

/-- C4 witness: the amended theorem applied at a concrete input. -/
theorem C4_missing_executable_witness :
    (({} : Kwargs).defaultArg = none ∧ ({} : Kwargs).programArg = none ∧
     op_exists wEmpty (reflectedProgram ctx0 {}) = false ∧
     op_exists wEmpty (directProgram ctx0) = false) ∧
    ((create_reflected ctx0 args0 {} wEmpty).2 =
       Except.error { msg := "Unable to find " ++ reflectedProgram ctx0 {} } ∧
     (create_reflected ctx0 args0 {} wEmpty).1 = wEmpty ∧
     (create_direct ctx0 args0 {} wEmpty).2 =
       Except.error { msg := "Unable to find " ++ directProgram ctx0 } ∧
     (create_direct ctx0 args0 {} wEmpty).1 = wEmpty) :=
  ⟨⟨rfl, rfl, rfl, rfl⟩,
   C4_missing_executable_rejected ctx0 args0 {} wEmpty rfl rfl rfl rfl⟩

/-- C5 counterexample: `create_stratospheric` accepts and silently ignores
explicitly supplied `default` and `program` keyword arguments instead of
rejecting the call. -/
theorem C5_cex_stratospheric_ignores_overrides :
    (create_stratospheric ctx0 sargs0 kwDefault wEmpty).2.isOk = true ∧
    (create_stratospheric ctx0 sargs0 kwProgram wEmpty).2.isOk = true :=
  ⟨rfl, rfl⟩

/-- C5 (amended): `create_direct` and `create_reflected` reject any call
that explicitly supplies `default` or `program`, regardless of the other
arguments, leaving the world unchanged. -/
theorem C5_override_rejected (ctx : Ctx) (a : ShowerArgs) (kw : Kwargs) (w : World)
    (h : kw.defaultArg.isSome = true ∨ kw.programArg.isSome = true) :
    (create_reflected ctx a kw w).2.isOk = false ∧
    (create_reflected ctx a kw w).1 = w ∧
    (create_direct ctx a kw w).2.isOk = false ∧
    (create_direct ctx a kw w).1 = w := by
  rcases h with h | h
  · simp [create_reflected, create_direct, h, Except.isOk, Except.toBool]
  · by_cases hd : kw.defaultArg.isSome <;>
      simp [create_reflected, create_direct, h, hd, Except.isOk, Except.toBool]

/-- C5 witness: the amended theorem applied at a concrete input. -/
theorem C5_override_witness :
    (kwDefault.defaultArg.isSome = true ∨ kwDefault.programArg.isSome = true) ∧
    ((create_reflected ctx0 args0 kwDefault w0).2.isOk = false ∧
     (create_reflected ctx0 args0 kwDefault w0).1 = w0 ∧
     (create_direct ctx0 args0 kwDefault w0).2.isOk = false ∧
     (create_direct ctx0 args0 kwDefault w0).1 = w0) :=
  ⟨Or.inl rfl, C5_override_rejected ctx0 args0 kwDefault w0 (Or.inl rfl)⟩

/-- C6 counterexample: `create_stratospheric` does not perform the core
builder's geomagnetic-field step (nor the injection-altitude step): the
task it returns has no geomagnetic field set, at this concrete input as at
any other. -/
theorem C6_cex_stratospheric_no_geomagnetic :
    (taskOf (create_stratospheric ctx0 sargs0 {} wEmpty)).map Task.geomagneticVal
      = some none ∧
    (taskOf (create_stratospheric ctx0 sargs0 {} wEmpty)).map Task.injectionVal
      = some none :=
  ⟨rfl, rfl⟩

/-- C6 (amended): `create_direct` and `create_reflected` delegate to
`create_shower` with their resolved default file and executable injected,
and hence perform the full builder sequence — in particular the returned
task's geomagnetic field is the result of the `igrf` query for the site and
date; `create_stratospheric` builds its task directly and never sets the
geomagnetic field. -/
theorem C6_direct_reflected_delegate (ctx : Ctx) (a : ShowerArgs) (kw : Kwargs)
    (w : World) (a2 : StratArgs) (kw2 : Kwargs) (w2 : World)
    (hd : kw.defaultArg = none) (hp : kw.programArg = none)
    (hR : op_exists w (reflectedProgram ctx kw) = true)
    (hD : op_exists w (directProgram ctx) = true) :
    create_reflected ctx a kw w =
      create_shower ctx a (some (reflectedDefault ctx))
        (some (reflectedProgram ctx kw)) w ∧
    create_direct ctx a kw w =
      create_shower ctx a (some (directDefault ctx)) (some (directProgram ctx)) w ∧
    (∃ t, (create_reflected ctx a kw w).2 = Except.ok t ∧
       t.geomagneticVal = some (ctx.igrf a.date a.lat a.lon a.ground)) ∧
    (∃ t, (create_direct ctx a kw w).2 = Except.ok t ∧
       t.geomagneticVal = some (ctx.igrf a.date a.lat a.lon a.ground)) ∧
    (∃ t, (create_stratospheric ctx a2 kw2 w2).2 = Except.ok t ∧
       t.geomagneticVal = none) := by
  have hrefl : create_reflected ctx a kw w =
      create_shower ctx a (some (reflectedDefault ctx))
        (some (reflectedProgram ctx kw)) w := by
    simp [create_reflected, hd, hp, hR]
  have hdir : create_direct ctx a kw w =
      create_shower ctx a (some (directDefault ctx)) (some (directProgram ctx)) w := by
    simp [create_direct, hd, hp, hD]
  refine ⟨hrefl, hdir, ?_, ?_, ?_⟩
  · obtain ⟨t, ht, -, -, -, -, -, -, -, -, -, -, -, hB, -⟩ :=
      create_shower_spec ctx a (some (reflectedDefault ctx))
        (some (reflectedProgram ctx kw)) w
    exact ⟨t, by rw [hrefl]; exact ht, hB⟩
  · obtain ⟨t, ht, -, -, -, -, -, -, -, -, -, -, -, hB, -⟩ :=
      create_shower_spec ctx a (some (directDefault ctx))
        (some (directProgram ctx)) w
    exact ⟨t, by rw [hdir]; exact ht, hB⟩
  · obtain ⟨t, ht, -, -, -, -, -, -, -, -, -, hB, -⟩ :=
      create_stratospheric_spec ctx a2 kw2 w2
    exact ⟨t, ht, hB⟩

/-- C6 witness: the amended theorem applied at a concrete input. -/
theorem C6_delegation_witness :
    (({} : Kwargs).defaultArg = none ∧ ({} : Kwargs).programArg = none ∧
     op_exists wProg (reflectedProgram ctx0 {}) = true ∧
     op_exists wProg (directProgram ctx0) = true) ∧
    (create_reflected ctx0 args0 {} wProg =
      create_shower ctx0 args0 (some (reflectedDefault ctx0))
        (some (reflectedProgram ctx0 {})) wProg) :=
  ⟨⟨rfl, rfl, rfl, rfl⟩,
   (C6_direct_reflected_delegate ctx0 args0 {} wProg sargs0 {} wEmpty
      rfl rfl rfl rfl).1⟩

/-- C7: for every shower request the primary energy set on the returned
task is `10 ^ energy`, the log10-eV input converted to linear eV — both in
`create_shower` (hence in the variants that delegate to it) and in
`create_stratospheric`. -/
theorem C7_primary_energy_pow10 (ctx : Ctx) (a : ShowerArgs)
    (df pg : Option String) (w : World) (a2 : StratArgs) (kw : Kwargs)
    (w2 : World) :
    (∃ t, (create_shower ctx a df pg w).2 = Except.ok t ∧
       t.primaryEnergyVal = some ((10 : ℝ) ^ ((a.energy : ℝ)))) ∧
    (∃ t, (create_stratospheric ctx a2 kw w2).2 = Except.ok t ∧
       t.primaryEnergyVal = some ((10 : ℝ) ^ ((a2.energy : ℝ)))) := by
  constructor
  · obtain ⟨t, ht, -, -, -, -, -, -, hE, -⟩ := create_shower_spec ctx a df pg w
    exact ⟨t, ht, hE⟩
  · obtain ⟨t, ht, -, -, -, -, hE, -⟩ := create_stratospheric_spec ctx a2 kw w2
    exact ⟨t, ht, hE⟩

/-- C8: for every call to `create_stratospheric` the zenith angle set on
the task is `180 − zenith`. -/
theorem C8_zenith_complement (ctx : Ctx) (a : StratArgs) (kw : Kwargs)
    (w : World) :
    ∃ t, (create_stratospheric ctx a kw w).2 = Except.ok t ∧
      t.primaryZenithVal = some (180 - a.zenith) := by
  obtain ⟨t, ht, -, -, -, -, -, hz, -⟩ := create_stratospheric_spec ctx a kw w
  exact ⟨t, ht, hz⟩

/-- `pad2` renders every natural number below 100 with exactly two digits. -/
theorem pad2_length : ∀ k < 100, (pad2 k).length = 2 := by decide

/-- C9: the site altitude is the `ground` argument (km) times 1000 (m) in
both `create_shower` and `create_stratospheric`, and the stratospheric
crossing-height command carries `height * 1000` formatted by `format2f`,
whose output always ends in a point followed by exactly two digits. -/
theorem C9_unit_conversions (ctx : Ctx) (a : ShowerArgs) (df pg : Option String)
    (w : World) (a2 : StratArgs) (kw : Kwargs) (w2 : World) (q : ℚ) :
    (∃ t, (create_shower ctx a df pg w).2 = Except.ok t ∧
       t.sites = [("LatLonAltSite", a.lat, a.lon, 1000 * a.ground, "m")]) ∧
    (∃ t, (create_stratospheric ctx a2 kw w2).2 = Except.ok t ∧
       t.sites = [("LatLonAltSite", a2.lat, a2.lon, 1000 * a2.ground, "m")] ∧
       t.cmds.getLast? =
         some ("SetGlobal RASPASSHeight " ++ format2f (a2.height * 1000))) ∧
    (∃ ip fr, format2f q = ip ++ "." ++ fr ∧ fr.length = 2) := by
  refine ⟨?_, ?_, ?_⟩
  · obtain ⟨t, ht, -, -, -, -, -, -, -, -, -, hs, -⟩ :=
      create_shower_spec ctx a df pg w
    exact ⟨t, ht, hs⟩
  · obtain ⟨t, ht, -, -, -, -, -, -, -, hs, -, -, -, -, hc⟩ :=
      create_stratospheric_spec ctx a2 kw w2
    exact ⟨t, ht, hs, hc⟩
  · refine ⟨(if rnd2 q < 0 then "-" else "") ++ toString ((rnd2 q).natAbs / 100),
      pad2 ((rnd2 q).natAbs % 100), rfl,
      pad2_length _ (Nat.mod_lt _ (by norm_num))⟩

/-- C10: in `create_direct` and `create_reflected` the override and
missing-executable checks precede every side effect: whenever the call
returns an error, the world — directories, current working directory, log
and the count of constructed tasks — is exactly the input world. -/
theorem C10_checks_before_side_effects (ctx : Ctx) (a : ShowerArgs) (kw : Kwargs)
    (w : World) :
    ((create_direct ctx a kw w).2.isOk = false → (create_direct ctx a kw w).1 = w) ∧
    ((create_reflected ctx a kw w).2.isOk = false →
      (create_reflected ctx a kw w).1 = w) := by
  constructor
  · intro h
    by_cases h1 : kw.defaultArg.isSome
    · simp [create_direct, h1]
    · by_cases h2 : kw.programArg.isSome
      · simp [create_direct, h1, h2]
      · by_cases h3 : op_exists w (directProgram ctx) = false
        · simp [create_direct, h1, h2, h3]
        · exfalso
          rw [show create_direct ctx a kw w = create_shower ctx a
              (some (directDefault ctx)) (some (directProgram ctx)) w by
            simp [create_direct, h1, h2, h3]] at h
          rw [create_shower_isOk] at h
          exact Bool.noConfusion h
  · intro h
    by_cases h1 : kw.defaultArg.isSome
    · simp [create_reflected, h1]
    · by_cases h2 : kw.programArg.isSome
      · simp [create_reflected, h1, h2]
      · by_cases h3 : op_exists w (reflectedProgram ctx kw) = false
        · simp [create_reflected, h1, h2, h3]
        · exfalso
          rw [show create_reflected ctx a kw w = create_shower ctx a
              (some (reflectedDefault ctx)) (some (reflectedProgram ctx kw)) w by
            simp [create_reflected, h1, h2, h3]] at h
          rw [create_shower_isOk] at h
          exact Bool.noConfusion h

/-- C10 witness: the theorem applied at a concrete input on which the
override check fires. -/
theorem C10_checks_witness :
    ((create_direct ctx0 args0 kwProgram w0).2.isOk = false ∧
     (create_direct ctx0 args0 kwProgram w0).1 = w0) ∧
    ((create_reflected ctx0 args0 kwProgram w0).2.isOk = false ∧
     (create_reflected ctx0 args0 kwProgram w0).1 = w0) :=
  ⟨⟨rfl, (C10_checks_before_side_effects ctx0 args0 kwProgram w0).1 rfl⟩,
   ⟨rfl, (C10_checks_before_side_effects ctx0 args0 kwProgram w0).2 rfl⟩⟩

end Anchor
